import Mathlib

/-!
Shallow embedding of the port scanner in `src/app.py` (repository
LpCodes/Port-Scanner).

The embedding follows the source line by line:

* `scan_port` (app.py lines 39-89): one TCP probe.  The behaviour of the
  operating-system socket for a given call is an explicit parameter
  (`ConnBehavior`), and the behaviour of the `socket.getservbyport` service
  database lookup is a `LookupBehavior`.  Python exception flow is embedded
  with `Except`: `scan_port_body` is the `try:` block (it can raise), and
  `scan_port` wraps it in the two `except` handlers of the source.
* `scan_ports` (lines 91-137): the ThreadPoolExecutor fan-out.  The futures
  submitted are `future_to_port`; the order in which `as_completed` yields
  them is an explicit `completed` list, constrained in the theorems to be a
  permutation of the submitted futures.  The body of the `for` loop is
  `scan_step`; `scan_loop_intr` additionally models a `KeyboardInterrupt`
  delivered before the k-th completion is processed.
* `parse_ports` (lines 139-172), `validate_ip` (lines 174-188) and `main`
  (lines 190-237) are embedded below, with `pyInt` modelling Python `int()`
  on the digit strings this program feeds it and `inet_aton` modelling the
  classic BSD `inet_aton` routine wrapped by `socket.inet_aton`.
* The bounded worker pool of `concurrent.futures.ThreadPoolExecutor` is
  modelled as the transition system `PoolStep`.
-/

deriving instance DecidableEq for Except

/-- Result dictionary built by scan_port (app.py lines 54-58): port number,
status string ("closed" by default, "open" on a successful connect) and the
optional service name. -/
structure PortResult where
  port : Int
  status : String
  service : Option String
deriving DecidableEq, Repr

/-- Behaviour of the operating-system TCP connect attempt underlying one
`s.connect_ex((ip, port))` call: it either returns an error code (0 means the
connection succeeded), raises `socket.timeout`, or raises some other
exception (unreachable network, resource exhaustion, ...). -/
inductive ConnBehavior where
  | returns (code : Int)
  | raiseTimeout
  | raiseError (msg : String)
deriving DecidableEq, Repr

/-- Behaviour of one `socket.getservbyport(port)` call: the service database
either yields a name or the call raises. -/
inductive LookupBehavior where
  | found (name : String)
  | raises
deriving DecidableEq, Repr

/-- Python exceptions that can cross an expression boundary in this program.
`socketTimeout` is `socket.timeout`; `valueError` carries the message of a
`ValueError`; `other` is any other `Exception`. -/
inductive PyExn where
  | socketTimeout
  | valueError (msg : String)
  | other (msg : String)
deriving DecidableEq, Repr

/-- Embedding of get_service_name (app.py lines 23-37): a bare
`try: return socket.getservbyport(port) except: return "unknown"`. -/
def get_service_name (port : Int) (lookup : LookupBehavior) : String :=
  match lookup with
  | .found n => n
  | .raises => "unknown"

/-- The `try:` block of scan_port (app.py lines 60-79) as an `Except`
computation: `s.settimeout(timeout)` raises `ValueError` for a negative
timeout, `connect_ex` behaves as `conn` dictates, and a zero return code
turns the default "closed" result into an "open" one with a service name. -/
def scan_port_body (ip : String) (port : Int) (timeout : Rat)
    (conn : ConnBehavior) (lookup : LookupBehavior) : Except PyExn PortResult :=
  if timeout < 0 then
    .error (.valueError "Timeout value out of range")
  else
    match conn with
    | .returns code =>
        if code = 0 then
          .ok { port := port, status := "open",
                service := some (get_service_name port lookup) }
        else
          .ok { port := port, status := "closed", service := none }
    | .raiseTimeout => .error .socketTimeout
    | .raiseError m => .error (.other m)

/-- Embedding of scan_port (app.py lines 39-89): the result dictionary starts
as closed (lines 54-58); the `except socket.timeout` and `except Exception`
handlers (lines 80-87) swallow every exception of the body and fall through
to `return result`, so the default dictionary is returned unchanged. -/
def scan_port (ip : String) (port : Int) (timeout : Rat)
    (conn : ConnBehavior) (lookup : LookupBehavior) : PortResult :=
  match scan_port_body ip port timeout conn lookup with
  | .ok r => r
  | .error .socketTimeout => { port := port, status := "closed", service := none }
  | .error _ => { port := port, status := "closed", service := none }

/-- Futures submitted by scan_ports (app.py lines 117-120): one
`executor.submit(scan_port, ip, port, timeout, verbose)` per entry of
`ports`, keyed back to its port.  `env` and `lenv` give the socket and
service-database behaviour the environment exhibits for each port of this
target during the scan. -/
def future_to_port (ip : String) (ports : List Int) (timeout : Rat)
    (env : Int → ConnBehavior) (lenv : Int → LookupBehavior) :
    List (PortResult × Int) :=
  ports.map (fun port => (scan_port ip port timeout (env port) (lenv port), port))

/-- Mutable state of the `as_completed` loop in scan_ports (app.py lines
106-134): the `scanned_ports` counter, the accumulated `open_ports` list and
the progress lines written so far (as pairs scanned/total). -/
structure LoopState where
  scanned : Nat
  openPorts : List PortResult
  progress : List (Nat × Nat)
deriving DecidableEq, Repr

/-- One iteration of the `for future in as_completed(...)` loop (app.py lines
123-134): increment the counter, append the result if its status is "open",
and write one progress line. -/
def scan_step (total : Nat) (st : LoopState) (r : PortResult) : LoopState :=
  let scanned := st.scanned + 1
  let openPorts := if r.status = "open" then st.openPorts ++ [r] else st.openPorts
  { scanned := scanned, openPorts := openPorts,
    progress := st.progress ++ [(scanned, total)] }

/-- The completion loop of scan_ports, run over the results in the order
`as_completed` yields them. -/
def scan_loop (total : Nat) : List PortResult → LoopState → LoopState
  | [], st => st
  | r :: rs, st => scan_loop total rs (scan_step total st r)

/-- Initial loop state of scan_ports (app.py lines 106-108). -/
def initLoopState : LoopState :=
  { scanned := 0, openPorts := [], progress := [] }

/-- Final loop state of scan_ports when every completion is processed. -/
def scan_ports_state (ports : List Int) (completed : List PortResult) : LoopState :=
  scan_loop ports.length completed initLoopState

/-- Return value of scan_ports (app.py line 137): the accumulated open
results only. -/
def scan_ports (ports : List Int) (completed : List PortResult) : List PortResult :=
  (scan_ports_state ports completed).openPorts

/-- The completion loop with a `KeyboardInterrupt` delivered just before the
k-th completion would be processed (k past the end of the list means the
interrupt never arrives).  The exception carries no data: the local
`open_ports`, `scanned_ports` and progress state of scan_ports are lost when
it propagates. -/
def scan_loop_intr (total : Nat) :
    List PortResult → Nat → LoopState → Except Unit LoopState
  | [], _, st => .ok st
  | _ :: _, 0, _ => .error ()
  | r :: rs, k + 1, st => scan_loop_intr total rs k (scan_step total st r)

example : scan_port "127.0.0.1" 80 1 (.returns 0) (.found "http")
    = { port := 80, status := "open", service := some "http" } := by decide

example : scan_port "127.0.0.1" 80 1 .raiseTimeout (.found "http")
    = { port := 80, status := "closed", service := none } := by decide

example : scan_ports [80, 81] [⟨80, "open", some "http"⟩, ⟨81, "closed", none⟩]
    = [⟨80, "open", some "http"⟩] := by decide

/-- Preset port lists of app.py lines 15-21. -/
def COMMON_PORTS : List (String × List Int) :=
  [("common", [21, 22, 23, 25, 53, 80, 110, 143, 443, 445, 3306, 3389, 5432, 8080]),
   ("web", [80, 443, 8080, 8443]),
   ("database", [1433, 1521, 3306, 5432, 27017]),
   ("mail", [25, 110, 143, 465, 587, 993, 995]),
   ("remote", [22, 23, 3389, 5900])]

/-- The `port_arg in COMMON_PORTS` dictionary test of app.py line 154. -/
def lookupPreset (s : String) : Option (List Int) :=
  (COMMON_PORTS.find? (fun kv => kv.1 == s)).map (fun kv => kv.2)

/-- Python `str.split(sep)` for a one-character separator, on the character
list of the string: empty pieces are preserved and `[[]]` is returned for the
empty string, exactly as in Python. -/
def splitOnChar (sep : Char) : List Char → List (List Char)
  | [] => [[]]
  | c :: rest =>
    match splitOnChar sep rest with
    | [] => if c = sep then [[], []] else [[c]]
    | piece :: pieces =>
      if c = sep then [] :: piece :: pieces else (c :: piece) :: pieces

/-- Numeric value of a list of decimal digit characters. -/
def digitsVal (l : List Char) : Nat :=
  l.foldl (fun acc c => acc * 10 + (c.toNat - 48)) 0

/-- Model of Python `int(str)` on the strings this program feeds it: an
optional sign followed by at least one decimal digit; anything else raises
ValueError.  (Python additionally strips whitespace and allows underscore
separators; none of those strings occur in the claims.) -/
def pyInt (cs : List Char) : Except String Int :=
  match cs with
  | [] => .error "invalid literal for int() with base 10"
  | '-' :: rest =>
    if rest ≠ [] ∧ rest.all Char.isDigit then .ok (-(digitsVal rest : Int))
    else .error "invalid literal for int() with base 10"
  | '+' :: rest =>
    if rest ≠ [] ∧ rest.all Char.isDigit then .ok ((digitsVal rest : Int))
    else .error "invalid literal for int() with base 10"
  | l =>
    if l.all Char.isDigit then .ok ((digitsVal l : Int))
    else .error "invalid literal for int() with base 10"

/-- The `list(range(1, 65536))` of app.py line 158. -/
def all_ports : List Int :=
  (List.range 65535).map (fun i : Nat => (i : Int) + 1)

/-- Python `list(range(a, b + 1))` over integers. -/
def intRange (a b : Int) : List Int :=
  (List.range ((b + 1 - a).toNat)).map (fun i : Nat => a + (i : Int))

/-- Range validation and construction of app.py lines 162-165, applied after
both bounds have been converted by `int`. -/
def range_branch (s e : Int) : Except String (List Int) :=
  if 1 ≤ s ∧ s ≤ e ∧ e ≤ 65535 then .ok (intRange s e)
  else .error "Port range must be between 1 and 65535"

/-- List validation of app.py lines 168-172, applied after every entry has
been converted by `int`. -/
def list_branch (ports : List Int) : Except String (List Int) :=
  if ∀ p ∈ ports, 1 ≤ p ∧ p ≤ 65535 then .ok ports
  else .error "Ports must be between 1 and 65535"

/-- Embedding of parse_ports (app.py lines 139-172).  A `.error` value is a
ValueError propagating to the caller.  (When a dash-separated input does not
split into exactly two pieces the source raises a ValueError from tuple
unpacking or from an inner `int` call; only the exception class matters to
main, so one message stands for that case.) -/
def parse_ports (port_arg : String) : Except String (List Int) :=
  match lookupPreset port_arg with
  | some preset => .ok preset
  | none =>
    if port_arg = "all" then
      .ok all_ports
    else if port_arg.data.contains '-' then
      match splitOnChar '-' port_arg.data with
      | [a, b] => do
          let s ← pyInt a
          let e ← pyInt b
          range_branch s e
      | _ => .error "too many values to unpack"
    else do
      let ports ← (splitOnChar ',' port_arg.data).mapM pyInt
      list_branch ports

/-- Value of a hexadecimal digit character, if it is one. -/
def hexDigitVal (c : Char) : Option Nat :=
  if '0' ≤ c ∧ c ≤ '9' then some (c.toNat - 48)
  else if 'a' ≤ c ∧ c ≤ 'f' then some (c.toNat - 87)
  else if 'A' ≤ c ∧ c ≤ 'F' then some (c.toNat - 55)
  else none

/-- C `isspace` on the ASCII whitespace characters. -/
def cIsSpace (c : Char) : Bool :=
  c == ' ' || c == '\t' || c == '\n' || c == '\x0b' || c == '\x0c' || c == '\r'

/-- Digit-accumulation loop of the classic BSD `inet_aton`: consume decimal
digits in any base (the C code multiplies by the base for any `isdigit`
character), plus hex letters when the base is 16, wrapping the 32-bit
accumulator. -/
def scanNum (base : Nat) : List Char → Nat → Nat × List Char
  | [], val => (val, [])
  | c :: rest, val =>
    if c.isDigit then
      scanNum base rest ((val * base + (c.toNat - 48)) % 2 ^ 32)
    else if base = 16 then
      match hexDigitVal c with
      | some d => scanNum base rest ((val * 16 + d) % 2 ^ 32)
      | none => (val, c :: rest)
    else (val, c :: rest)

/-- Leading C-style number of a character list: `0x`/`0X` prefix means hex,
a leading `0` means octal, otherwise decimal; the first character must be a
digit.  Returns the value and the unconsumed remainder. -/
def parseCNum (cs : List Char) : Option (Nat × List Char) :=
  match cs with
  | '0' :: 'x' :: rest => some (scanNum 16 rest 0)
  | '0' :: 'X' :: rest => some (scanNum 16 rest 0)
  | '0' :: rest => some (scanNum 8 rest 0)
  | c :: rest => if c.isDigit then some (scanNum 10 (c :: rest) 0) else none
  | [] => none

/-- Outer loop of `inet_aton`: up to four dot-separated numbers; at most
three may be pushed before the final one (parts + 3 check of the C source).
The fuel argument only bounds the structural recursion; `length + 1` always
suffices because every round consumes at least one character. -/
def aton_loop : Nat → List Char → List Nat → Option (List Nat × List Char)
  | 0, _, _ => none
  | fuel + 1, cs, parts =>
    match parseCNum cs with
    | none => none
    | some (val, rest) =>
      match rest with
      | '.' :: rest2 =>
        if 3 ≤ parts.length then none
        else aton_loop fuel rest2 (parts ++ [val])
      | _ => some (parts ++ [val], rest)

/-- Model of the C library routine `inet_aton` wrapped by Python
`socket.inet_aton`: parse one to four dot-separated C-style numbers, allow a
whitespace character to end the string, and range-check the parts according
to how many there are (the classic BSD semantics, including the non-dotted
shorthand forms). -/
def inet_aton (s : String) : Bool :=
  match aton_loop (s.data.length + 1) s.data [] with
  | none => false
  | some (parts, rest) =>
    (match rest with
     | [] => true
     | c :: _ => cIsSpace c) &&
    (match parts with
     | [_] => true
     | [a, v] => decide (a ≤ 255) && decide (v ≤ 16777215)
     | [a, b, v] => decide (a ≤ 255) && decide (b ≤ 255) && decide (v ≤ 65535)
     | [a, b, c, v] =>
         decide (a ≤ 255) && decide (b ≤ 255) && decide (c ≤ 255) && decide (v ≤ 255)
     | _ => false)

/-- Embedding of validate_ip (app.py lines 174-188): True exactly when
`socket.inet_aton` does not raise. -/
def validate_ip (ip : String) : Bool :=
  inet_aton ip

/-- Exceptions main's `try` block distinguishes around the scan: a ValueError
(from parse_ports or from ThreadPoolExecutor's max_workers check) or a
KeyboardInterrupt. -/
inductive ScanExn where
  | valueError (msg : String)
  | keyboardInterrupt
deriving DecidableEq, Repr

/-- scan_ports as invoked by main, together with the argument validation the
standard library performs on entry: `ThreadPoolExecutor.__init__` raises
`ValueError("max_workers must be greater than 0")` for a non-positive worker
count before any task starts, and a KeyboardInterrupt before the k-th
completion aborts the loop, losing its local state. -/
def run_scan (ip : String) (ports : List Int) (workers : Int) (timeout : Rat)
    (env : Int → ConnBehavior) (lenv : Int → LookupBehavior) (k : Nat) :
    Except ScanExn (List PortResult) :=
  if workers ≤ 0 then
    .error (.valueError "max_workers must be greater than 0")
  else
    match scan_loop_intr ports.length
        ((future_to_port ip ports timeout env lenv).map Prod.fst) k initLoopState with
    | .ok st => .ok st.openPorts
    | .error () => .error .keyboardInterrupt

/-- Observable outcome of one run of main (app.py lines 190-237): the
invalid-address early return, a caught ValueError, a caught
KeyboardInterrupt, or a completed scan with its open-port list. -/
inductive MainOutcome where
  | invalidIp
  | valueError (msg : String)
  | interrupted
  | finished (openPorts : List PortResult)
deriving DecidableEq, Repr

/-- Embedding of main (app.py lines 190-237): validate the target address,
parse the port specification, run the scan; `except ValueError` and
`except KeyboardInterrupt` turn those exceptions into printed messages. -/
def py_main (target port_arg : String) (workers : Int) (timeout : Rat)
    (env : Int → ConnBehavior) (lenv : Int → LookupBehavior) (k : Nat) :
    MainOutcome :=
  if validate_ip target = false then .invalidIp
  else
    match parse_ports port_arg with
    | .error msg => .valueError msg
    | .ok ports =>
      match run_scan target ports workers timeout env lenv k with
      | .ok results => .finished results
      | .error (.valueError msg) => .valueError msg
      | .error .keyboardInterrupt => .interrupted

/-- State of the ThreadPoolExecutor worker pool during one scan: ports whose
probe has not started, ports whose probe is running on some worker thread,
and ports whose probe has completed. -/
structure PoolState where
  pending : List Int
  running : List Int
  completedPorts : List Int
deriving DecidableEq, Repr

/-- Transition system of the bounded worker pool (the documented scheduling
of `concurrent.futures.ThreadPoolExecutor` with `max_workers` threads): a
pending probe may start only while fewer than `maxWorkers` probes are
running, and a running probe may finish at any time. -/
inductive PoolStep (maxWorkers : Nat) : PoolState → PoolState → Prop where
  | start (p : Int) (rest running fin : List Int) :
      running.length < maxWorkers →
      PoolStep maxWorkers ⟨p :: rest, running, fin⟩ ⟨rest, p :: running, fin⟩
  | finish (p : Int) (pending r1 r2 fin : List Int) :
      PoolStep maxWorkers ⟨pending, r1 ++ p :: r2, fin⟩ ⟨pending, r1 ++ r2, p :: fin⟩

/-- Pool state when scan_ports has submitted all probes and none has started. -/
def poolInit (ports : List Int) : PoolState :=
  ⟨ports, [], []⟩

/-- Reachability in the worker-pool transition system. -/
def PoolReachable (maxWorkers : Nat) (s t : PoolState) : Prop :=
  Relation.ReflTransGen (PoolStep maxWorkers) s t

/-- Fixed environments used to instantiate quantified theorems on concrete
inputs: every connect attempt succeeds and every service lookup says http. -/
def envOpen : Int → ConnBehavior := fun _ => ConnBehavior.returns 0

/-- Fixed service-database behaviour used for concrete instantiations. -/
def lenvHttp : Int → LookupBehavior := fun _ => LookupBehavior.found "http"

example : parse_ports "1,65535" = .ok [1, 65535] := by decide
example : parse_ports "1-3" = .ok [1, 2, 3] := by decide
example : parse_ports "0" = .error "Ports must be between 1 and 65535" := by decide
example : parse_ports "web" = .ok [80, 443, 8080, 8443] := by decide
example : validate_ip "127.0.0.1" = true := by decide
example : validate_ip "127.1" = true := by decide
example : validate_ip "1" = true := by decide
example : validate_ip "::1" = false := by decide
example : validate_ip "256.1.1.1" = false := by decide
example : validate_ip "0x7f.1" = true := by decide
example : py_main "127.0.0.1" "80" 100 1 envOpen lenvHttp 5
    = .finished [⟨80, "open", some "http"⟩] := by decide
example : py_main "127.0.0.1" "80" 100 (-1) envOpen lenvHttp 5
    = .finished [] := by decide
example : py_main "127.0.0.1" "80,443" 100 1 envOpen lenvHttp 1
    = .interrupted := by decide
example : py_main "127.0.0.1" "80" 0 1 envOpen lenvHttp 5
    = .valueError "max_workers must be greater than 0" := by decide

/-- Every probe result is either the open dictionary or the default closed
dictionary of app.py lines 54-58, and it carries the probed port. -/
lemma scan_port_cases (ip : String) (p : Int) (t : Rat)
    (conn : ConnBehavior) (l : LookupBehavior) :
    scan_port ip p t conn l
        = { port := p, status := "open", service := some (get_service_name p l) }
      ∨ scan_port ip p t conn l = { port := p, status := "closed", service := none } := by
  unfold scan_port scan_port_body
  by_cases h : t < 0
  · simp [h]
  · cases conn with
    | returns code =>
      by_cases hc : code = 0
      · simp [h, hc]
      · simp [h, hc]
    | raiseTimeout => simp [h]
    | raiseError m => simp [h]

lemma scan_port_port_eq (ip : String) (p : Int) (t : Rat)
    (conn : ConnBehavior) (l : LookupBehavior) :
    (scan_port ip p t conn l).port = p := by
  rcases scan_port_cases ip p t conn l with h | h <;> rw [h]

lemma scan_port_raiseTimeout (ip : String) (p : Int) (t : Rat) (l : LookupBehavior) :
    scan_port ip p t ConnBehavior.raiseTimeout l
      = { port := p, status := "closed", service := none } := by
  unfold scan_port scan_port_body
  by_cases h : t < 0 <;> simp [h]

lemma scan_port_raiseError (ip : String) (p : Int) (t : Rat) (m : String)
    (l : LookupBehavior) :
    scan_port ip p t (ConnBehavior.raiseError m) l
      = { port := p, status := "closed", service := none } := by
  unfold scan_port scan_port_body
  by_cases h : t < 0 <;> simp [h]

lemma scan_port_refused (ip : String) (p : Int) (t : Rat) (code : Int)
    (hc : code ≠ 0) (l : LookupBehavior) :
    scan_port ip p t (ConnBehavior.returns code) l
      = { port := p, status := "closed", service := none } := by
  unfold scan_port scan_port_body
  by_cases h : t < 0 <;> simp [h, hc]

/-- The scanned-ports counter advances once per processed completion. -/
lemma scan_loop_scanned (total : Nat) (completed : List PortResult) (st : LoopState) :
    (scan_loop total completed st).scanned = st.scanned + completed.length := by
  induction completed generalizing st with
  | nil => simp [scan_loop]
  | cons r rs ih =>
    rw [scan_loop, ih]
    simp [scan_step]
    omega

/-- The open-ports accumulator of the loop is the open-status filter of the
processed completions, appended in processing order. -/
lemma scan_loop_openPorts (total : Nat) (completed : List PortResult) (st : LoopState) :
    (scan_loop total completed st).openPorts
      = st.openPorts ++ completed.filter (fun r => r.status == "open") := by
  induction completed generalizing st with
  | nil => simp [scan_loop]
  | cons r rs ih =>
    rw [scan_loop, ih]
    by_cases h : r.status = "open"
    · simp [scan_step, h, List.filter_cons]
    · simp [scan_step, h, List.filter_cons]

/-- The progress lines written by the loop count up one at a time from the
entry counter. -/
lemma scan_loop_progress (total : Nat) (completed : List PortResult) (st : LoopState) :
    (scan_loop total completed st).progress
      = st.progress
        ++ (List.range' (st.scanned + 1) completed.length).map (fun c => (c, total)) := by
  induction completed generalizing st with
  | nil => simp [scan_loop]
  | cons r rs ih =>
    rw [scan_loop, ih]
    simp [scan_step, List.range', Nat.add_assoc]

/-- An interrupt delivered before the list is exhausted aborts the loop with
no surviving state. -/
lemma scan_loop_intr_lt (total : Nat) (completed : List PortResult) (k : Nat)
    (st : LoopState) (h : k < completed.length) :
    scan_loop_intr total completed k st = Except.error () := by
  induction completed generalizing k st with
  | nil => simp at h
  | cons r rs ih =>
    cases k with
    | zero => rfl
    | succ k =>
      rw [scan_loop_intr]
      exact ih k (scan_step total st r) (by simpa using Nat.lt_of_succ_lt_succ h)

/-- Without an interrupt the interruptible loop agrees with the plain loop. -/
lemma scan_loop_intr_ge (total : Nat) (completed : List PortResult) (k : Nat)
    (st : LoopState) (h : completed.length ≤ k) :
    scan_loop_intr total completed k st = Except.ok (scan_loop total completed st) := by
  induction completed generalizing k st with
  | nil => rfl
  | cons r rs ih =>
    cases k with
    | zero => simp at h
    | succ k =>
      rw [scan_loop_intr, scan_loop]
      exact ih k (scan_step total st r) (by simpa using Nat.le_of_succ_le_succ h)

/-- Adjacent entries of a unit-step range differ by exactly one. -/
lemma chain_succ_of_range' (s n : Nat) :
    List.Chain' (fun a b => b = a + 1) (List.range' s n) := by
  induction n generalizing s with
  | zero => simp
  | succ m ih =>
    cases m with
    | zero => simp [List.range']
    | succ m' =>
      rw [List.range']
      exact List.chain'_cons.mpr ⟨rfl, ih (s + 1)⟩

/-- C1: counterexample.  A probe that times out yields the very same result
dictionary as a probe whose connection is actively refused (connect_ex code
111): both report status "closed"; so does any other I/O fault.  The claimed
distinct TIMEOUT and ERROR statuses do not exist in the code. -/
theorem c1_counterexample :
    scan_port "127.0.0.1" 80 1 ConnBehavior.raiseTimeout (LookupBehavior.found "http")
      = scan_port "127.0.0.1" 80 1 (ConnBehavior.returns 111) (LookupBehavior.found "http")
    ∧ (scan_port "127.0.0.1" 80 1 ConnBehavior.raiseTimeout
        (LookupBehavior.found "http")).status = "closed"
    ∧ (scan_port "127.0.0.1" 80 1 (ConnBehavior.raiseError "Network is unreachable")
        (LookupBehavior.found "http")).status = "closed" := by
  decide

/-- C1 (amended): a probe whose connection attempt times out, raises any
other exception, or is refused returns the default dictionary with status
"closed"; every result status is either "open" or "closed", so timeout and
error outcomes are not distinguished from a refusal in the returned value
(only in optional verbose logging). -/
theorem c1_amended (ip : String) (p : Int) (t : Rat)
    (conn : ConnBehavior) (l : LookupBehavior) :
    ((scan_port ip p t conn l).status = "open"
      ∨ (scan_port ip p t conn l).status = "closed")
    ∧ (conn = ConnBehavior.raiseTimeout →
        scan_port ip p t conn l = { port := p, status := "closed", service := none })
    ∧ (∀ m, conn = ConnBehavior.raiseError m →
        scan_port ip p t conn l = { port := p, status := "closed", service := none })
    ∧ (∀ c, conn = ConnBehavior.returns c → c ≠ 0 →
        scan_port ip p t conn l = { port := p, status := "closed", service := none }) := by
  refine ⟨?_, ?_, ?_, ?_⟩
  · rcases scan_port_cases ip p t conn l with h | h <;> rw [h] <;> simp
  · rintro rfl
    exact scan_port_raiseTimeout ip p t l
  · rintro m rfl
    exact scan_port_raiseError ip p t m l
  · rintro c rfl hc
    exact scan_port_refused ip p t c hc l

/-- Witness instantiating the amended C1 theorem at a timed-out probe. -/
theorem c1_amended_witness :
    scan_port "127.0.0.1" 22 1 ConnBehavior.raiseTimeout LookupBehavior.raises
      = { port := 22, status := "closed", service := none } :=
  (c1_amended "127.0.0.1" 22 1 ConnBehavior.raiseTimeout LookupBehavior.raises).2.1 rfl

/-- C5: scan_port is total.  The returned dictionary always carries the
probed port; whenever the try-block raises (timeout, ValueError from a bad
timeout value, or any other exception), the handlers return the default
closed dictionary instead of propagating; a normal body result is passed
through unchanged; and a failed service lookup yields "unknown". -/
theorem c5_no_exception_escapes (ip : String) (p : Int) (t : Rat)
    (conn : ConnBehavior) (l : LookupBehavior) :
    (scan_port ip p t conn l).port = p
    ∧ (∀ e, scan_port_body ip p t conn l = Except.error e →
        scan_port ip p t conn l = { port := p, status := "closed", service := none })
    ∧ (∀ r, scan_port_body ip p t conn l = Except.ok r → scan_port ip p t conn l = r)
    ∧ get_service_name p LookupBehavior.raises = "unknown" := by
  refine ⟨scan_port_port_eq ip p t conn l, ?_, ?_, rfl⟩
  · intro e he
    unfold scan_port
    rw [he]
    cases e <;> rfl
  · intro r hr
    unfold scan_port
    rw [hr]

/-- Witness instantiating C5 where the connect attempt raises an OSError. -/
theorem c5_witness :
    scan_port "10.0.0.9" 443 1 (ConnBehavior.raiseError "No route to host")
        LookupBehavior.raises
      = { port := 443, status := "closed", service := none } :=
  (c5_no_exception_escapes "10.0.0.9" 443 1 (ConnBehavior.raiseError "No route to host")
    LookupBehavior.raises).2.1 (PyExn.other "No route to host") (by decide)

/-- C2: probe accounting.  One future is submitted per entry of the port
list (length preserved, the futures map back onto the ports pointwise, and
each future's result carries its port), and once every completion is
processed the counter equals the number of requested ports — so with
duplicates allowed in the input, each requested entry is probed exactly
once, none is skipped, and exactly one PortResult arises per entry. -/
theorem c2_probe_accounting (ip : String) (ports : List Int) (t : Rat)
    (env : Int → ConnBehavior) (lenv : Int → LookupBehavior)
    (completed : List PortResult)
    (h : completed.Perm ((future_to_port ip ports t env lenv).map Prod.fst)) :
    (future_to_port ip ports t env lenv).length = ports.length
    ∧ (future_to_port ip ports t env lenv).map Prod.snd = ports
    ∧ (future_to_port ip ports t env lenv).map (fun f => f.1.port) = ports
    ∧ completed.length = ports.length
    ∧ (scan_ports_state ports completed).scanned = ports.length := by
  refine ⟨?_, ?_, ?_, ?_, ?_⟩
  · simp [future_to_port]
  · simp [future_to_port, Function.comp_def]
  · simp [future_to_port, Function.comp_def, scan_port_port_eq]
  · rw [h.length_eq]
    simp [future_to_port]
  · rw [scan_ports_state, scan_loop_scanned, h.length_eq]
    simp [initLoopState, future_to_port]

/-- Witness instantiating C2 on a duplicate-bearing port list, with the
completion order equal to the submission order. -/
theorem c2_probe_accounting_witness :
    (future_to_port "127.0.0.1" [80, 80, 443] 1 envOpen lenvHttp).length
        = [80, 80, 443].length
    ∧ (future_to_port "127.0.0.1" [80, 80, 443] 1 envOpen lenvHttp).map Prod.snd
        = [80, 80, 443]
    ∧ (future_to_port "127.0.0.1" [80, 80, 443] 1 envOpen lenvHttp).map
        (fun f => f.1.port) = [80, 80, 443]
    ∧ ((future_to_port "127.0.0.1" [80, 80, 443] 1 envOpen lenvHttp).map
        Prod.fst).length = [80, 80, 443].length
    ∧ (scan_ports_state [80, 80, 443]
        ((future_to_port "127.0.0.1" [80, 80, 443] 1 envOpen lenvHttp).map
          Prod.fst)).scanned = [80, 80, 443].length :=
  c2_probe_accounting "127.0.0.1" [80, 80, 443] 1 envOpen lenvHttp _ (List.Perm.refl _)

/-- C6: the value scan_ports returns is exactly the open-status results among
the processed completions, kept in completion order — every returned entry
has status "open", and every open completion appears. -/
theorem c6_open_only (ip : String) (ports : List Int) (t : Rat)
    (env : Int → ConnBehavior) (lenv : Int → LookupBehavior)
    (completed : List PortResult)
    (h : completed.Perm ((future_to_port ip ports t env lenv).map Prod.fst)) :
    scan_ports ports completed = completed.filter (fun r => r.status == "open")
    ∧ (∀ r ∈ scan_ports ports completed, r.status = "open")
    ∧ (∀ r ∈ completed, r.status = "open" → r ∈ scan_ports ports completed) := by
  have hfil : scan_ports ports completed
      = completed.filter (fun r => r.status == "open") := by
    rw [scan_ports, scan_ports_state, scan_loop_openPorts]
    simp [initLoopState]
  refine ⟨hfil, ?_, ?_⟩
  · intro r hr
    rw [hfil] at hr
    simpa using (List.mem_filter.mp hr).2
  · intro r hr hopen
    rw [hfil]
    exact List.mem_filter.mpr ⟨hr, by simpa using hopen⟩

/-- Witness instantiating C6 with the completion order equal to the
submission order. -/
theorem c6_open_only_witness :
    scan_ports [80] ((future_to_port "127.0.0.1" [80] 1 envOpen lenvHttp).map Prod.fst)
      = ((future_to_port "127.0.0.1" [80] 1 envOpen lenvHttp).map Prod.fst).filter
          (fun r => r.status == "open") :=
  (c6_open_only "127.0.0.1" [80] 1 envOpen lenvHttp _ (List.Perm.refl _)).1

/-- C7: over one scan of a nonempty port list, the progress lines are exactly
the pairs (1, total), (2, total), ..., (total, total): the completed count is
non-decreasing, increases by exactly one per completion with no gaps or
duplicates, and equals the total exactly once — on the final line. -/
theorem c7_progress (ip : String) (ports : List Int) (t : Rat)
    (env : Int → ConnBehavior) (lenv : Int → LookupBehavior)
    (completed : List PortResult)
    (h : completed.Perm ((future_to_port ip ports t env lenv).map Prod.fst))
    (hne : ports ≠ []) :
    ((scan_ports_state ports completed).progress).map Prod.fst
        = List.range' 1 ports.length
    ∧ (∀ ev ∈ (scan_ports_state ports completed).progress, ev.2 = ports.length)
    ∧ List.Chain' (fun a b => b = a + 1)
        (((scan_ports_state ports completed).progress).map Prod.fst)
    ∧ List.Pairwise (fun a b => a ≤ b)
        (((scan_ports_state ports completed).progress).map Prod.fst)
    ∧ List.count ports.length
        (((scan_ports_state ports completed).progress).map Prod.fst) = 1
    ∧ (((scan_ports_state ports completed).progress).map Prod.fst).getLast?
        = some ports.length := by
  have hlen : completed.length = ports.length := by
    rw [h.length_eq]
    simp [future_to_port]
  have hprog : (scan_ports_state ports completed).progress
      = (List.range' 1 ports.length).map (fun c => (c, ports.length)) := by
    rw [scan_ports_state, scan_loop_progress]
    simp [initLoopState, hlen]
  have hfst : ((scan_ports_state ports completed).progress).map Prod.fst
      = List.range' 1 ports.length := by
    rw [hprog]
    simp [List.map_map, Function.comp_def]
  have hn : 1 ≤ ports.length := List.length_pos.mpr hne
  refine ⟨hfst, ?_, ?_, ?_, ?_, ?_⟩
  · intro ev hev
    rw [hprog] at hev
    obtain ⟨c, _, rfl⟩ := List.mem_map.mp hev
    rfl
  · rw [hfst]
    exact chain_succ_of_range' 1 ports.length
  · rw [hfst]
    exact (List.pairwise_lt_range' 1 ports.length).imp (fun hab => Nat.le_of_lt hab)
  · rw [hfst]
    exact List.count_eq_one_of_mem (List.nodup_range' 1 ports.length)
      (List.mem_range'_1.mpr ⟨hn, by omega⟩)
  · rw [hfst, List.getLast?_range', if_neg (by omega)]
    congr 1
    omega

/-- Witness instantiating C7 on a two-port scan with completion order equal
to submission order. -/
theorem c7_progress_witness :
    ((scan_ports_state [80, 443] ((future_to_port "127.0.0.1" [80, 443] 1 envOpen
        lenvHttp).map Prod.fst)).progress).map Prod.fst
      = List.range' 1 [80, 443].length :=
  (c7_progress "127.0.0.1" [80, 443] 1 envOpen lenvHttp _ (List.Perm.refl _)
    (by decide)).1

/-- C3: counterexample.  A negative (hence non-positive) timeout is an
invalid configuration, yet nothing surfaces it to the caller before
scanning: main runs the scan to completion (returning a finished outcome),
and the probe that was attempted swallowed the ValueError raised by
settimeout inside its own try-block, reporting the port closed even though
the connection would have succeeded. -/
theorem c3_counterexample :
    py_main "127.0.0.1" "80" 100 (-1) envOpen lenvHttp 5 = MainOutcome.finished []
    ∧ scan_port_body "127.0.0.1" 80 (-1) (envOpen 80) (lenvHttp 80)
        = Except.error (PyExn.valueError "Timeout value out of range")
    ∧ scan_port "127.0.0.1" 80 (-1) (envOpen 80) (lenvHttp 80)
        = { port := 80, status := "closed", service := none } := by
  decide

/-- C3 (amended): a malformed or out-of-range port value surfaces its
ValueError before any scanning, and a non-positive worker count surfaces a
ValueError from pool construction before any probe; but a non-positive
timeout is not validated anywhere — the scan starts and runs to completion
with it (each probe swallowing the per-socket fault). -/
theorem c3_amended :
    (∀ (target port_arg : String) (workers : Int) (t : Rat)
        (env : Int → ConnBehavior) (lenv : Int → LookupBehavior) (k : Nat)
        (msg : String),
      validate_ip target = true → parse_ports port_arg = Except.error msg →
      py_main target port_arg workers t env lenv k = MainOutcome.valueError msg)
    ∧ (∀ (ip : String) (ports : List Int) (workers : Int) (t : Rat)
        (env : Int → ConnBehavior) (lenv : Int → LookupBehavior) (k : Nat),
      workers ≤ 0 →
      run_scan ip ports workers t env lenv k
        = Except.error (ScanExn.valueError "max_workers must be greater than 0"))
    ∧ (∀ (ip : String) (ports : List Int) (env : Int → ConnBehavior)
        (lenv : Int → LookupBehavior),
      run_scan ip ports 100 (-1) env lenv ports.length
        = Except.ok (scan_ports ports
            ((future_to_port ip ports (-1) env lenv).map Prod.fst))) := by
  refine ⟨?_, ?_, ?_⟩
  · intro target port_arg workers t env lenv k msg hv hp
    unfold py_main
    simp [hv, hp]
  · intro ip ports workers t env lenv k hw
    unfold run_scan
    rw [if_pos hw]
  · intro ip ports env lenv
    have hlen : ((future_to_port ip ports (-1 : Rat) env lenv).map Prod.fst).length
        ≤ ports.length := by
      simp [future_to_port]
    unfold run_scan
    rw [if_neg (by omega), scan_loop_intr_ge _ _ _ _ hlen]
    rfl

/-- Witness instantiating the amended C3 theorem: an out-of-range port value
is rejected before any scanning. -/
theorem c3_amended_witness :
    py_main "127.0.0.1" "70000" 100 1 envOpen lenvHttp 5
      = MainOutcome.valueError "Ports must be between 1 and 65535" :=
  c3_amended.1 "127.0.0.1" "70000" 100 1 envOpen lenvHttp 5
    "Ports must be between 1 and 65535" (by decide) (by decide)

/-- C4: counterexample.  An interrupt delivered after the first of two
completions: the partial ScanOutcome accumulated so far is the nonempty list
with the open port-80 result, but main yields only the interrupted outcome —
the partial results are discarded, not returned. -/
theorem c4_counterexample :
    py_main "127.0.0.1" "80,443" 100 1 envOpen lenvHttp 1 = MainOutcome.interrupted
    ∧ (scan_ports_state [80, 443]
        [{ port := 80, status := "open", service := some "http" }]).openPorts
        = [{ port := 80, status := "open", service := some "http" }]
    ∧ MainOutcome.interrupted
        ≠ MainOutcome.finished [{ port := 80, status := "open", service := some "http" }] := by
  decide

/-- C4 (amended): a KeyboardInterrupt before the scan's completion loop
finishes makes the loop abort with no surviving state; the exception
propagates out of scan_ports and main catches it and terminates normally
with the interrupted outcome — the partial ScanOutcome is lost, not
returned, and the process does not crash. -/
theorem c4_amended :
    (∀ (total : Nat) (completed : List PortResult) (k : Nat) (st : LoopState),
      k < completed.length → scan_loop_intr total completed k st = Except.error ())
    ∧ (∀ (ip : String) (ports : List Int) (workers : Int) (t : Rat)
        (env : Int → ConnBehavior) (lenv : Int → LookupBehavior) (k : Nat),
      0 < workers → k < ports.length →
      run_scan ip ports workers t env lenv k = Except.error ScanExn.keyboardInterrupt)
    ∧ (∀ (target port_arg : String) (workers : Int) (t : Rat)
        (env : Int → ConnBehavior) (lenv : Int → LookupBehavior) (k : Nat)
        (ports : List Int),
      validate_ip target = true → parse_ports port_arg = Except.ok ports →
      0 < workers → k < ports.length →
      py_main target port_arg workers t env lenv k = MainOutcome.interrupted) := by
  have h2 : ∀ (ip : String) (ports : List Int) (workers : Int) (t : Rat)
      (env : Int → ConnBehavior) (lenv : Int → LookupBehavior) (k : Nat),
      0 < workers → k < ports.length →
      run_scan ip ports workers t env lenv k
        = Except.error ScanExn.keyboardInterrupt := by
    intro ip ports workers t env lenv k hw hk
    have hklen : k < ((future_to_port ip ports t env lenv).map Prod.fst).length := by
      simpa [future_to_port] using hk
    unfold run_scan
    rw [if_neg (by omega), scan_loop_intr_lt _ _ _ _ hklen]
  refine ⟨fun total completed k st hk => scan_loop_intr_lt total completed k st hk,
    h2, ?_⟩
  intro target port_arg workers t env lenv k ports hv hp hw hk
  unfold py_main
  simp [hv, hp, h2 target ports workers t env lenv k hw hk]

/-- Witness instantiating the amended C4 theorem: an interrupt before any
completion yields the interrupted outcome. -/
theorem c4_amended_witness :
    py_main "127.0.0.1" "22,80" 100 1 envOpen lenvHttp 0 = MainOutcome.interrupted :=
  c4_amended.2.2 "127.0.0.1" "22,80" 100 1 envOpen lenvHttp 0 [22, 80]
    (by decide) (by decide) (by decide) (by decide)

/-- C9: in the bounded worker-pool transition system, every state reachable
from the initial state of a scan — for any port list, in particular the full
1..65535 — has at most maxWorkers probes running simultaneously. -/
theorem c9_bounded_pool (maxWorkers : Nat) (hm : 1 ≤ maxWorkers) (ports : List Int)
    (s : PoolState) (h : PoolReachable maxWorkers (poolInit ports) s) :
    s.running.length ≤ maxWorkers := by
  induction h with
  | refl => simp [poolInit]
  | tail hreach hstep ih =>
    cases hstep with
    | start p rest running fin hlt => simpa using hlt
    | finish p pending r1 r2 fin =>
      simp only [List.length_append, List.length_cons] at ih ⊢
      omega

/-- Witness instantiating C9 after starting one probe of a two-port scan
under a pool of two workers. -/
theorem c9_bounded_pool_witness :
    (PoolState.mk [443] [80] []).running.length ≤ 2 :=
  c9_bounded_pool 2 (by decide) [80, 443] (PoolState.mk [443] [80] [])
    (Relation.ReflTransGen.single (PoolStep.start 80 [443] [] [] (by decide)))

/-- Membership in the "all" port list is exactly the interval 1..65535. -/
lemma mem_all_ports (p : Int) : p ∈ all_ports ↔ 1 ≤ p ∧ p ≤ 65535 := by
  unfold all_ports
  simp only [List.mem_map, List.mem_range]
  constructor
  · rintro ⟨i, hi, rfl⟩
    omega
  · rintro ⟨h1, h2⟩
    have hpn : ((p - 1).toNat : Int) = p - 1 := Int.toNat_of_nonneg (by omega)
    refine ⟨(p - 1).toNat, by omega, by omega⟩

/-- C8: parse_ports maps the literal "all" to the full ascending sequence of
ports 1..65535 (characterised by membership, strict sortedness and length);
any range bound or list entry outside 1..65535 makes the respective branch
raise ValueError after int conversion; and the boundary values 1 and 65535
are accepted in both the list and the range syntax while 0 and 65536 are
rejected. -/
theorem c8_parse_ports :
    parse_ports "all" = Except.ok all_ports
    ∧ (∀ p : Int, p ∈ all_ports ↔ 1 ≤ p ∧ p ≤ 65535)
    ∧ List.Pairwise (fun a b => a < b) all_ports
    ∧ all_ports.length = 65535
    ∧ (∀ s e : Int, ¬(1 ≤ s ∧ s ≤ e ∧ e ≤ 65535) →
        range_branch s e = Except.error "Port range must be between 1 and 65535")
    ∧ (∀ l : List Int, ¬(∀ p ∈ l, 1 ≤ p ∧ p ≤ 65535) →
        list_branch l = Except.error "Ports must be between 1 and 65535")
    ∧ parse_ports "1,65535" = Except.ok [1, 65535]
    ∧ parse_ports "1-3" = Except.ok [1, 2, 3]
    ∧ parse_ports "0" = Except.error "Ports must be between 1 and 65535"
    ∧ parse_ports "65536" = Except.error "Ports must be between 1 and 65535"
    ∧ parse_ports "0-10" = Except.error "Port range must be between 1 and 65535"
    ∧ parse_ports "65530-65536"
        = Except.error "Port range must be between 1 and 65535" := by
  refine ⟨rfl, mem_all_ports, ?_, ?_, ?_, ?_,
    by decide, by decide, by decide, by decide, by decide, by decide⟩
  · unfold all_ports
    refine List.Pairwise.map _ (fun a b hab => ?_) (List.pairwise_lt_range 65535)
    show (a : Int) + 1 < (b : Int) + 1
    omega
  · unfold all_ports
    rw [List.length_map, List.length_range]
  · intro s e hne
    unfold range_branch
    rw [if_neg hne]
  · intro l hne
    unfold list_branch
    rw [if_neg hne]

/-- Witness instantiating C8's range-branch rejection at the out-of-range
range 0-10. -/
theorem c8_parse_ports_witness :
    range_branch 0 10 = Except.error "Port range must be between 1 and 65535" :=
  c8_parse_ports.2.2.2.2.1 0 10 (by decide)

/-- The digit loop of inet_aton never consumes a colon. -/
lemma scanNum_colon (base : Nat) (cs : List Char) (val : Nat) (h : ':' ∈ cs) :
    ':' ∈ (scanNum base cs val).2 := by
  induction cs generalizing val with
  | nil => simp at h
  | cons c rest ih =>
    rw [scanNum]
    by_cases hd : c.isDigit
    · rw [if_pos hd]
      apply ih
      rcases List.mem_cons.mp h with hcc | hmem
      · rw [← hcc] at hd
        exact absurd hd (by decide)
      · exact hmem
    · rw [if_neg hd]
      by_cases hb : base = 16
      · rw [if_pos hb]
        rcases hhex : hexDigitVal c with _ | d
        · simpa using h
        · simp only []
          apply ih
          rcases List.mem_cons.mp h with hcc | hmem
          · rw [← hcc] at hhex
            rw [(by decide : hexDigitVal ':' = none)] at hhex
            exact Option.noConfusion hhex
          · exact hmem
      · rw [if_neg hb]
        exact h

/-- What the digit loop leaves unconsumed is a suffix of its input. -/
lemma scanNum_suffix (base : Nat) (cs : List Char) (val : Nat) :
    (scanNum base cs val).2 <:+ cs := by
  induction cs generalizing val with
  | nil => simp [scanNum]
  | cons c rest ih =>
    rw [scanNum]
    by_cases hd : c.isDigit
    · rw [if_pos hd]
      exact (ih _).trans (List.suffix_cons c rest)
    · rw [if_neg hd]
      by_cases hb : base = 16
      · rw [if_pos hb]
        rcases hhex : hexDigitVal c with _ | d
        · simp
        · simp only []
          exact (ih _).trans (List.suffix_cons c rest)
      · rw [if_neg hb]



/-- The leading-number parser of inet_aton never consumes a colon. -/
lemma parseCNum_colon (cs : List Char) (v : Nat) (rest : List Char)
    (hp : parseCNum cs = some (v, rest)) (h : ':' ∈ cs) : ':' ∈ rest := by
  unfold parseCNum at hp
  split at hp
  · rename_i r
    have h2 : (scanNum 16 r 0).2 = rest := congrArg Prod.snd (Option.some.inj hp)
    rw [← h2]
    apply scanNum_colon
    simp only [List.mem_cons] at h
    rcases h with h | h | h
    · exact absurd h (by decide)
    · exact absurd h (by decide)
    · exact h
  · rename_i r
    have h2 : (scanNum 16 r 0).2 = rest := congrArg Prod.snd (Option.some.inj hp)
    rw [← h2]
    apply scanNum_colon
    simp only [List.mem_cons] at h
    rcases h with h | h | h
    · exact absurd h (by decide)
    · exact absurd h (by decide)
    · exact h
  · rename_i r k1 k2
    have h2 : (scanNum 8 r 0).2 = rest := congrArg Prod.snd (Option.some.inj hp)
    rw [← h2]
    apply scanNum_colon
    simp only [List.mem_cons] at h
    rcases h with h | h
    · exact absurd h (by decide)
    · exact h
  · rename_i c0 r k1 k2 k3
    split at hp
    · have h2 : (scanNum 10 (c0 :: r) 0).2 = rest :=
        congrArg Prod.snd (Option.some.inj hp)
      rw [← h2]
      exact scanNum_colon _ _ _ h
    · exact Option.noConfusion hp
  · exact Option.noConfusion hp

/-- What the leading-number parser leaves unconsumed is a suffix of its
input. -/
lemma parseCNum_suffix (cs : List Char) (v : Nat) (rest : List Char)
    (hp : parseCNum cs = some (v, rest)) : rest <:+ cs := by
  unfold parseCNum at hp
  split at hp
  · rename_i r
    have h2 : (scanNum 16 r 0).2 = rest := congrArg Prod.snd (Option.some.inj hp)
    rw [← h2]
    exact (scanNum_suffix _ _ _).trans
      ((List.suffix_cons _ _).trans (List.suffix_cons _ _))
  · rename_i r
    have h2 : (scanNum 16 r 0).2 = rest := congrArg Prod.snd (Option.some.inj hp)
    rw [← h2]
    exact (scanNum_suffix _ _ _).trans
      ((List.suffix_cons _ _).trans (List.suffix_cons _ _))
  · rename_i r k1 k2
    have h2 : (scanNum 8 r 0).2 = rest := congrArg Prod.snd (Option.some.inj hp)
    rw [← h2]
    exact (scanNum_suffix _ _ _).trans (List.suffix_cons _ _)
  · rename_i c0 r k1 k2 k3
    split at hp
    · have h2 : (scanNum 10 (c0 :: r) 0).2 = rest :=
        congrArg Prod.snd (Option.some.inj hp)
      rw [← h2]
      exact scanNum_suffix _ _ _
    · exact Option.noConfusion hp
  · exact Option.noConfusion hp

/-- The dotted-parts loop of inet_aton never consumes a colon: if it
succeeds, the colon is still in the unconsumed remainder. -/
lemma aton_loop_colon (fuel : Nat) (cs : List Char) (parts ps : List Nat)
    (rest : List Char) (h : aton_loop fuel cs parts = some (ps, rest))
    (hc : ':' ∈ cs) : ':' ∈ rest := by
  induction fuel generalizing cs parts with
  | zero => exact Option.noConfusion h
  | succ fuel ih =>
    rw [aton_loop] at h
    rcases hp : parseCNum cs with _ | ⟨val, r⟩
    · rw [hp] at h
      exact Option.noConfusion h
    · rw [hp] at h
      have hr : ':' ∈ r := parseCNum_colon cs val r hp hc
      split at h
      · exact Option.noConfusion h
      · rename_i x val2 rest2 heq
        injection heq with heq2
        injection heq2 with hv hrr
        subst hv
        subst hrr
        split at h
        · split at h
          · exact Option.noConfusion h
          · apply ih _ _ h
            simp only [List.mem_cons] at hr
            rcases hr with hr | hr
            · exact absurd hr (by decide)
            · exact hr
        · have h2 : r = rest := congrArg Prod.snd (Option.some.inj h)
          rw [← h2]
          exact hr

/-- What the dotted-parts loop leaves unconsumed is a suffix of its input. -/
lemma aton_loop_suffix (fuel : Nat) (cs : List Char) (parts ps : List Nat)
    (rest : List Char) (h : aton_loop fuel cs parts = some (ps, rest)) :
    rest <:+ cs := by
  induction fuel generalizing cs parts with
  | zero => exact Option.noConfusion h
  | succ fuel ih =>
    rw [aton_loop] at h
    rcases hp : parseCNum cs with _ | ⟨val, r⟩
    · rw [hp] at h
      exact Option.noConfusion h
    · rw [hp] at h
      have hsuf : r <:+ cs := parseCNum_suffix cs val r hp
      split at h
      · exact Option.noConfusion h
      · rename_i x val2 rest2 heq
        injection heq with heq2
        injection heq2 with hv hrr
        subst hv
        subst hrr
        split at h
        · split at h
          · exact Option.noConfusion h
          · exact (ih _ _ h).trans ((List.suffix_cons _ _).trans hsuf)
        · have h2 : r = rest := congrArg Prod.snd (Option.some.inj h)
          rw [← h2]
          exact hsuf

/-- C10: validate_ip is exactly success of the inet_aton parser; the parser
accepts the non-dotted-quad IPv4 shorthands "1" and "127.1" (and ordinary
dotted quads), and rejects every whitespace-free string containing a colon —
hence every IPv6 address literal — so IPv6 targets never reach the scan
while some non-standard IPv4 spellings do. -/
theorem c10_validate_ip :
    (∀ s, validate_ip s = inet_aton s)
    ∧ validate_ip "1" = true
    ∧ validate_ip "127.1" = true
    ∧ validate_ip "127.0.0.1" = true
    ∧ (∀ s : String, ':' ∈ s.data → (∀ c ∈ s.data, cIsSpace c = false) →
        validate_ip s = false)
    ∧ validate_ip "::1" = false
    ∧ validate_ip "2001:db8::1" = false := by
  refine ⟨fun s => rfl, by decide, by decide, by decide, ?_, by decide, by decide⟩
  intro s hcolon hnospace
  unfold validate_ip inet_aton
  rcases ha : aton_loop (s.data.length + 1) s.data [] with _ | ⟨parts, rest⟩
  · rfl
  · have hr : ':' ∈ rest := aton_loop_colon _ _ _ _ _ ha hcolon
    have hsuf : rest <:+ s.data := aton_loop_suffix _ _ _ _ _ ha
    cases rest with
    | nil => exact absurd hr (by simp)
    | cons c rest2 =>
      have hcs : cIsSpace c = false :=
        hnospace c (hsuf.subset (List.mem_cons_self c rest2))
      simp [hcs]

/-- Witness instantiating C10's rejection clause on a concrete IPv6
literal. -/
theorem c10_validate_ip_witness : validate_ip "fe80::1" = false :=
  c10_validate_ip.2.2.2.2.1 "fe80::1" (by decide) (by decide)
